import Mathlib

/-!
Verification development for the memory relationship-detection and clustering
engine of the lifelink repository.  The authoritative implementation is the
Python reference code in `src/docs/features/memory-graph-implementation.md`
(`RelationshipService._analyze_relationship`, `find_relationships`,
`get_memory_graph`, `detect_memory_clusters`, and the graph router endpoints).

Modelling conventions:
* Real arithmetic is modelled exactly over `ℚ` (the claims under study do not
  hinge on floating-point rounding).
* Creation timestamps are modelled as integer epoch seconds.  Python's
  `(date1 - date2).days` is the floor of the signed difference in days
  (`timedelta` normalises so that `days` is floored toward minus infinity),
  i.e. `Int.fdiv (t1 - t2) 86400`; `abs(...)` is then `Int.natAbs`.
* The external NLP capabilities (`SentenceTransformer` embeddings and the
  spaCy entity extractor in `_extract_entities`) are injected capabilities:
  each memory carries its extracted entity set as a field, and the cosine
  similarity of a pair is an input (the code passes `similarity_matrix[i][j]`
  into `_analyze_relationship`), exactly as the claims speak of "memories with
  computed features".
-/

namespace LifeLink

/-- A memory record as consumed by the relationship service: identifier,
creation timestamp (epoch seconds), optional mood label (`none` models a
missing mood, i.e. Python `dict.get('mood') is None`), and the set of
entities extracted from its text (lower-cased strings, as produced by
`_extract_entities`). -/
structure Memory where
  id : String
  created_at : Int
  mood : Option String
  entities : Finset String
deriving DecidableEq

/-- The relationship dictionary built by `_analyze_relationship`:
source and target memory ids, accumulated strength, relationship type and
list of reason tags. -/
structure Relationship where
  source : String
  target : String
  strength : ℚ
  type : String
  reasons : List String
deriving DecidableEq

/-- Direct translation of `RelationshipService._analyze_relationship`
(src/docs/features/memory-graph-implementation.md lines 133-173): start with
strength 0, type `"related"`, no reasons, then apply the four factors in
order, each adding its contribution, possibly overwriting the type, and
appending its reason tag. -/
def analyze_relationship (mem1 mem2 : Memory) (similarity : ℚ) : Relationship :=
  let r0 : Relationship :=
    { source := mem1.id, target := mem2.id, strength := 0, type := "related", reasons := [] }
  -- 1. Semantic similarity
  let r1 := if similarity > 7/10 then
      { r0 with strength := r0.strength + similarity * (4/10),
                reasons := r0.reasons ++ ["semantic_similarity"] }
    else r0
  -- 2. Temporal proximity: abs((date1 - date2).days) < 7
  let time_diff := (Int.fdiv (mem1.created_at - mem2.created_at) 86400).natAbs
  let r2 := if time_diff < 7 then
      { r1 with strength := r1.strength + 3/10,
                type := "temporal",
                reasons := r1.reasons ++ ["temporal_proximity"] }
    else r1
  -- 3. Entity overlap
  let overlap := (mem1.entities ∩ mem2.entities).card
  let r3 := if overlap > 0 then
      { r2 with strength := r2.strength + (overlap : ℚ) * (1/10),
                type := "entity_based",
                reasons := r2.reasons ++ ["shared_entities"] }
    else r2
  -- 4. Mood correlation: mem1.get('mood') == mem2.get('mood')
  if mem1.mood = mem2.mood then
      { r3 with strength := r3.strength + 2/10,
                reasons := r3.reasons ++ ["same_mood"] }
  else r3

/-- The temporal firing condition exactly as the code computes it. -/
def temporalFires (mem1 mem2 : Memory) : Prop :=
  (Int.fdiv (mem1.created_at - mem2.created_at) 86400).natAbs < 7

instance (mem1 mem2 : Memory) : Decidable (temporalFires mem1 mem2) := by
  unfold temporalFires; infer_instance

/-- Placeholder memory used to make Python's always-in-range list indexing
total; every index actually used lies below the list length. -/
def defaultMemory : Memory := ⟨"", 0, none, ∅⟩

/-- Direct translation of `RelationshipService.find_relationships`
(lines 110-131): loop over ordered index pairs `i < j`, score each pair with
the pairwise cosine similarity `sim i j`, and append the relationship only
when its strength exceeds the hardcoded threshold `0.3` (strictly). -/
def find_relationships (sim : Nat → Nat → ℚ) (memories : List Memory) : List Relationship :=
  (List.range memories.length).flatMap (fun i =>
    ((List.range memories.length).filter (fun j => i < j)).filterMap (fun j =>
      let r := analyze_relationship (memories.getD i defaultMemory)
        (memories.getD j defaultMemory) (sim i j)
      if r.strength > 3/10 then some r else none))

/-- All scored pairs, with no threshold applied: what `find_relationships`
would collect if the `if relationship.strength > 0.3` guard were absent.
Used to state which scored relationships survive the pipeline's filters. -/
def score_all_pairs (sim : Nat → Nat → ℚ) (memories : List Memory) : List Relationship :=
  (List.range memories.length).flatMap (fun i =>
    ((List.range memories.length).filter (fun j => i < j)).map (fun j =>
      analyze_relationship (memories.getD i defaultMemory)
        (memories.getD j defaultMemory) (sim i j)))

/-- Statistics block of the graph payload (`stats` in `get_memory_graph`). -/
structure GraphStats where
  total_memories : Nat
  total_connections : Nat
  avg_connection_strength : ℚ
deriving DecidableEq

/-- Graph payload assembled by `get_memory_graph`. -/
structure GraphData where
  nodes : List Memory
  edges : List Relationship
  stats : GraphStats
deriving DecidableEq

/-- Direct translation of the `GET /memories/graph` endpoint
`get_memory_graph` (lines 193-235) at `time_range = "all"` (the claims fix the
memory set, and for `"all"` the endpoint applies no time filtering; the helper
`filter_by_time_range` is not defined anywhere in the repository): run
`find_relationships`, keep relationships with `strength >= min_strength`, and
assemble nodes, edges and statistics. -/
def get_memory_graph (sim : Nat → Nat → ℚ) (memories : List Memory)
    (min_strength : ℚ) : GraphData :=
  let relationships := (find_relationships sim memories).filter
    (fun r => min_strength ≤ r.strength)
  { nodes := memories,
    edges := relationships,
    stats :=
      { total_memories := memories.length,
        total_connections := relationships.length,
        avg_connection_strength :=
          if relationships = [] then 0
          else ((relationships.map (·.strength)).sum) / (relationships.length : ℚ) } }

/-- The strength formula that claim C1 states, read literally: the temporal
term fires when the absolute difference between the two creation timestamps
is under 7 days (7 * 86400 seconds), the other terms as in the code. Declared
for comparison with the computation actually performed by
`analyze_relationship`. -/
def claimed_strength (mem1 mem2 : Memory) (similarity : ℚ) : ℚ :=
  (if similarity > 7/10 then similarity * (4/10) else 0)
  + (if (mem1.created_at - mem2.created_at).natAbs < 7 * 86400 then (3 : ℚ)/10 else 0)
  + (if 0 < (mem1.entities ∩ mem2.entities).card then
      ((mem1.entities ∩ mem2.entities).card : ℚ) * (1/10) else 0)
  + (if mem1.mood = mem2.mood then (2 : ℚ)/10 else 0)

/-- A fixed all-zero similarity matrix, for concrete instantiations. -/
def simZero : Nat → Nat → ℚ := fun _ _ => 0

/-- Two demo memories one day apart sharing a mood: their score is
0.3 + 0.2 = 0.5, so the pair survives the detection threshold. -/
def demoMems : List Memory :=
  [⟨"A", 0, some "happy", ∅⟩, ⟨"B", 86400, some "happy", ∅⟩]

/-- Weighted undirected graph handed to community detection: node
identifiers and weighted edges (one edge per relationship, weighted by its
strength, as built at the start of `detect_memory_clusters`). -/
structure WGraph where
  nodes : List String
  edges : List (String × String × ℚ)

/-- Total edge weight of the graph. -/
def WGraph.totalWeight (g : WGraph) : ℚ :=
  (g.edges.map (fun e => e.2.2)).sum

/-- Total weight of the edges running between two disjoint communities. -/
def commWeight (edges : List (String × String × ℚ)) (c1 c2 : List String) : ℚ :=
  (edges.map (fun e =>
    if (e.1 ∈ c1 ∧ e.2.1 ∈ c2) ∨ (e.1 ∈ c2 ∧ e.2.1 ∈ c1) then e.2.2 else 0)).sum

/-- Sum of the weighted degrees of a community's members. -/
def commTot (edges : List (String × String × ℚ)) (c : List String) : ℚ :=
  (edges.map (fun e =>
    (if e.1 ∈ c then e.2.2 else 0) + (if e.2.1 ∈ c then e.2.2 else 0))).sum

/-- Modularity gain of merging two disjoint communities of a graph with
total edge weight `m`: `w(c1,c2)/m - Σtot(c1)·Σtot(c2)/(2m²)`. -/
def mergeGain (edges : List (String × String × ℚ)) (m : ℚ) (c1 c2 : List String) : ℚ :=
  commWeight edges c1 c2 / m - commTot edges c1 * commTot edges c2 / (2 * m ^ 2)

/-- Index pair `(i, j)` (with `i < j`) of the strictly-positive merge with
the largest modularity gain — the first such pair on ties — or `none` when
no merge improves modularity. -/
def bestPair (edges : List (String × String × ℚ)) (m : ℚ)
    (cs : List (List String)) : Option (Nat × Nat) :=
  (((List.range cs.length).flatMap (fun i =>
      ((List.range cs.length).filter (fun j => i < j)).map (fun j => (i, j)))).foldl
    (fun best p =>
      let gp := mergeGain edges m (cs.getD p.1 []) (cs.getD p.2 [])
      match best with
      | none => if gp > 0 then some (p, gp) else none
      | some qg => if gp > qg.2 then some (p, gp) else some qg)
    none).map (fun x => x.1)

/-- Merge community `j` into community `i` (for `i < j`), dropping slot `j`. -/
def mergeAt (cs : List (List String)) (i j : Nat) : List (List String) :=
  (List.range cs.length).filterMap (fun k =>
    if k = j then none
    else if k = i then some (cs.getD i [] ++ cs.getD j [])
    else some (cs.getD k []))

/-- Greedy merge rounds. The fuel list bounds the number of rounds by the
node count, which always suffices: each successful merge reduces the number
of communities by one, so at most `n - 1` merges can ever happen before a
round finds no improving pair and stops. -/
def greedyRounds (edges : List (String × String × ℚ)) (m : ℚ) :
    List String → List (List String) → List (List String)
  | [], cs => cs
  | _ :: fuel, cs =>
    match bestPair edges m cs with
    | none => cs
    | some p => greedyRounds edges m fuel (mergeAt cs p.1 p.2)

/-- Modelled from the spec: `detect_memory_clusters` calls
`networkx.algorithms.community.louvain_communities`, a third-party library
function whose code is not part of this repository.  The spec describes the
step as "a community-detection algorithm (modularity-maximizing, e.g.
Louvain-style greedy merge) to partition nodes into communities".  Modelled
accordingly as greedy agglomerative modularity maximisation over the
weighted graph: start from singleton communities and repeatedly apply the
strictly-positive merge of maximal modularity gain until none exists.  Like
the library function, this returns a partition of all the graph's nodes: an
isolated node has weighted degree 0, so no merge involving it ever has a
strictly positive gain and it remains a singleton community (networkx
behaves the same way — moving an isolated node never increases
modularity). -/
def louvain_communities (g : WGraph) : List (List String) :=
  greedyRounds g.edges g.totalWeight g.nodes (g.nodes.map (fun u => [u]))

/-- A cluster as assembled by `detect_memory_clusters`: identifier
`cluster_<i>`, member memories and community size.  The `theme` field is
omitted from the model because the helper that would produce it,
`detect_cluster_theme`, is undefined anywhere in the repository. -/
structure Cluster where
  id : String
  memories : List Memory
  size : Nat
deriving DecidableEq

/-- Direct translation of `detect_memory_clusters` (lines 279-305): build a
graph with one node per memory and one weighted edge per relationship, run
community detection, and wrap each detected community as a cluster holding
the member memories and the community size. -/
def detect_memory_clusters (relationships : List Relationship)
    (memories : List Memory) : List Cluster :=
  let g : WGraph :=
    { nodes := memories.map (fun m => m.id),
      edges := relationships.map (fun r => (r.source, r.target, r.strength)) }
  let communities := louvain_communities g
  (List.range communities.length).map (fun i =>
    { id := "cluster_" ++ toString i,
      memories := memories.filter (fun m => m.id ∈ communities.getD i []),
      size := (communities.getD i []).length })

/-- The five-memory scenario of claim C6: three memories A, B, C mutually
connected by relationships of strength 0.5 (above the 0.3 threshold), two
isolated memories D and E. -/
def mems5 : List Memory :=
  [⟨"A", 0, some "happy", ∅⟩, ⟨"B", 0, some "happy", ∅⟩, ⟨"C", 0, some "happy", ∅⟩,
   ⟨"D", 0, some "sad", ∅⟩, ⟨"E", 0, some "calm", ∅⟩]

/-- The qualifying relationships of the five-memory scenario. -/
def rels5 : List Relationship :=
  [⟨"A", "B", 1/2, "temporal", []⟩, ⟨"A", "C", 1/2, "temporal", []⟩,
   ⟨"B", "C", 1/2, "temporal", []⟩]

/-- Modelled from the spec: the body of the `POST /memories/{id}/relate`
endpoint `manually_relate_memories` (lines 238-247) is a `pass` stub — only
its declaration exists in the repository.  Per the spec it performs "manual
relationship creation (caller-specified source/target/type/strength,
bypassing the Scorer — persisted as type=manual)".  Modelled as appending
the caller-specified relationship to the persisted list. -/
def manually_relate_memories (stored : List Relationship)
    (source target rtype : String) (strength : ℚ) : List Relationship :=
  stored ++ [{ source := source, target := target, strength := strength,
               type := rtype, reasons := [] }]

/-- Neighbours of a memory in the undirected relationship list, with the
strength of the connecting relationship. -/
def adjOf (rels : List Relationship) (u : String) : List (String × ℚ) :=
  rels.filterMap (fun r =>
    if r.source = u then some (r.target, r.strength)
    else if r.target = u then some (r.source, r.strength) else none)

/-- All simple paths from `u` to `goal` with their costs; a traversed
relationship of strength `s` costs `1 - s`, so stronger connections are
cheaper.  The fuel list bounds the number of hops by the node count, which
suffices for simple paths. -/
def simplePaths (rels : List Relationship) :
    List String → List String → String → String → List (List String × ℚ)
  | [], _, u, goal => if u = goal then [([u], 0)] else []
  | _ :: fuel, visited, u, goal =>
    if u = goal then [([u], 0)]
    else (adjOf rels u).flatMap (fun vw =>
      if vw.1 ∈ visited ∨ vw.1 = u then []
      else (simplePaths rels fuel (u :: visited) vw.1 goal).map
        (fun pc => (u :: pc.1, (1 - vw.2) + pc.2)))

/-- Modelled from the spec: the body of the `GET
/memories/{memory_id}/path/{target_id}` endpoint `find_memory_path`
(lines 310-318) is a `pass` stub carrying only the comment "Implementation
using Dijkstra's algorithm".  Per the spec it performs "path-finding between
two memories (shortest path by inverse strength — i.e., treat weight as
cost = 1 - strength ... standard shortest-path algorithm, e.g. Dijkstra)".
Modelled as the minimum-cost simple path through the relationship list
(first minimum on ties); `none` when the two memories are disconnected. -/
def find_memory_path (rels : List Relationship) (src dst : String) :
    Option (List String) :=
  let nodes := (rels.map (fun r => r.source) ++ rels.map (fun r => r.target)).dedup
  ((simplePaths rels nodes [] src dst).foldl
    (fun best pc =>
      match best with
      | none => some pc
      | some b => if pc.2 < b.2 then some pc else some b) none).map (fun pc => pc.1)

/-- Strength of `analyze_relationship` as a closed-form sum of the four
factor contributions. -/
theorem analyze_strength_eq (mem1 mem2 : Memory) (similarity : ℚ) :
    (analyze_relationship mem1 mem2 similarity).strength =
      (if similarity > 7/10 then similarity * (4/10) else 0)
      + (if temporalFires mem1 mem2 then (3 : ℚ)/10 else 0)
      + (if 0 < (mem1.entities ∩ mem2.entities).card then
          ((mem1.entities ∩ mem2.entities).card : ℚ) * (1/10) else 0)
      + (if mem1.mood = mem2.mood then (2 : ℚ)/10 else 0) := by
  unfold analyze_relationship temporalFires
  by_cases h1 : similarity > 7/10 <;>
    by_cases h2 : (Int.fdiv (mem1.created_at - mem2.created_at) 86400).natAbs < 7 <;>
    by_cases h3 : 0 < (mem1.entities ∩ mem2.entities).card <;>
    by_cases h4 : mem1.mood = mem2.mood <;>
    simp [h1, h2, h3, h4, Finset.card_pos]

/-- Reasons of `analyze_relationship` as the concatenation of the tags of the
factors that fire, in factor order. -/
theorem analyze_reasons_eq (mem1 mem2 : Memory) (similarity : ℚ) :
    (analyze_relationship mem1 mem2 similarity).reasons =
      (if similarity > 7/10 then ["semantic_similarity"] else [])
      ++ (if temporalFires mem1 mem2 then ["temporal_proximity"] else [])
      ++ (if 0 < (mem1.entities ∩ mem2.entities).card then ["shared_entities"] else [])
      ++ (if mem1.mood = mem2.mood then ["same_mood"] else []) := by
  unfold analyze_relationship temporalFires
  by_cases h1 : similarity > 7/10 <;>
    by_cases h2 : (Int.fdiv (mem1.created_at - mem2.created_at) 86400).natAbs < 7 <;>
    by_cases h3 : 0 < (mem1.entities ∩ mem2.entities).card <;>
    by_cases h4 : mem1.mood = mem2.mood <;>
    simp [h1, h2, h3, h4, Finset.card_pos]

/-- Type of `analyze_relationship`: the entity factor wins, then the temporal
factor, otherwise the initial value `"related"`; the semantic and mood factors
never touch the type. -/
theorem analyze_type_eq (mem1 mem2 : Memory) (similarity : ℚ) :
    (analyze_relationship mem1 mem2 similarity).type =
      (if 0 < (mem1.entities ∩ mem2.entities).card then "entity_based"
       else if temporalFires mem1 mem2 then "temporal"
       else "related") := by
  unfold analyze_relationship temporalFires
  by_cases h1 : similarity > 7/10 <;>
    by_cases h2 : (Int.fdiv (mem1.created_at - mem2.created_at) 86400).natAbs < 7 <;>
    by_cases h3 : 0 < (mem1.entities ∩ mem2.entities).card <;>
    by_cases h4 : mem1.mood = mem2.mood <;>
    simp [h1, h2, h3, h4, Finset.card_pos]

/-- Source and target of the scored relationship are the two memory ids. -/
theorem analyze_source_target (mem1 mem2 : Memory) (similarity : ℚ) :
    (analyze_relationship mem1 mem2 similarity).source = mem1.id ∧
    (analyze_relationship mem1 mem2 similarity).target = mem2.id := by
  unfold analyze_relationship
  by_cases h1 : similarity > 7/10 <;>
    by_cases h2 : (Int.fdiv (mem1.created_at - mem2.created_at) 86400).natAbs < 7 <;>
    by_cases h3 : 0 < (mem1.entities ∩ mem2.entities).card <;>
    by_cases h4 : mem1.mood = mem2.mood <;>
    simp [h1, h2, h3, h4, Finset.card_pos]

/-- A helper identity: conditionally collecting the images of the elements
that satisfy a predicate is the same as mapping first and filtering after. -/
theorem filterMap_if_eq {α β : Type} (f : α → β) (p : β → Prop) [DecidablePred p]
    (l : List α) :
    l.filterMap (fun a => if p (f a) then some (f a) else none)
      = (l.map f).filter (fun b => p b) := by
  induction l with
  | nil => rfl
  | cons a t ih =>
    by_cases h : p (f a) <;> simp [h, ih]

/-- find_relationships is score_all_pairs with the hardcoded strict 0.3
threshold applied. -/
theorem find_relationships_eq_filter (sim : Nat → Nat → ℚ) (memories : List Memory) :
    find_relationships sim memories
      = (score_all_pairs sim memories).filter (fun r => 3/10 < r.strength) := by
  unfold find_relationships score_all_pairs
  rw [List.filter_flatMap]
  refine congrArg _ (funext fun i => ?_)
  rw [← filterMap_if_eq
    (fun j => analyze_relationship (memories.getD i defaultMemory)
      (memories.getD j defaultMemory) (sim i j))
    (fun r => 3/10 < r.strength)]

/-- Membership in the scored-pairs list, unpacked to index pairs. -/
theorem mem_score_all_pairs (sim : Nat → Nat → ℚ) (memories : List Memory)
    (r : Relationship) :
    r ∈ score_all_pairs sim memories ↔
      ∃ i j : Nat, i < j ∧ j < memories.length ∧
        r = analyze_relationship (memories.getD i defaultMemory)
          (memories.getD j defaultMemory) (sim i j) := by
  unfold score_all_pairs
  simp only [List.mem_flatMap, List.mem_map, List.mem_filter, List.mem_range,
    decide_eq_true_eq]
  constructor
  · rintro ⟨i, hi, j, ⟨hj, hij⟩, hr⟩
    exact ⟨i, j, hij, hj, hr.symm⟩
  · rintro ⟨i, j, hij, hj, hr⟩
    exact ⟨i, lt_trans hij hj, j, ⟨hj, hij⟩, hr.symm⟩

/-- Every relationship emitted by the detection pass exceeds the hardcoded
strict 0.3 threshold. -/
theorem find_relationships_strength_gt (sim : Nat → Nat → ℚ) (memories : List Memory) :
    ∀ r ∈ find_relationships sim memories, 3/10 < r.strength := by
  intro r hr
  rw [find_relationships_eq_filter] at hr
  simpa using (List.mem_filter.mp hr).2

/-- C1 (counterexample): two memories whose creation timestamps are 6.5 days
apart, the earlier one first. Their absolute timestamp difference is below
7 days, so the claimed formula contributes 0.3, but the code computes
`abs((date1 - date2).days)` = `abs(floor(-6.5))` = 7, so the temporal factor
does not fire and the scored strength is 0. -/
theorem scorer_realday_temporal_cex :
    (analyze_relationship ⟨"A", 0, some "a", ∅⟩ ⟨"B", 561600, some "b", ∅⟩ 0).strength = 0 ∧
    claimed_strength ⟨"A", 0, some "a", ∅⟩ ⟨"B", 561600, some "b", ∅⟩ 0 = 3/10 ∧
    (analyze_relationship ⟨"A", 0, some "a", ∅⟩ ⟨"B", 561600, some "b", ∅⟩ 0).strength ≠
      claimed_strength ⟨"A", 0, some "a", ∅⟩ ⟨"B", 561600, some "b", ∅⟩ 0 := by
  have hT : ¬ temporalFires ⟨"A", 0, some "a", ∅⟩ ⟨"B", 561600, some "b", ∅⟩ := by decide
  have hM : ¬ ("a" : String) = "b" := by decide
  have hN : ((0 : Int) - 561600).natAbs = 561600 := by decide
  have hN2 : ((-561600 : Int)).natAbs = 561600 := by decide
  refine ⟨?_, ?_, ?_⟩ <;>
    norm_num [analyze_strength_eq, claimed_strength, hT, hM, hN, hN2]

/-- C1 (amended): the strength returned by the pairwise scorer is the exact
sum of the factor contributions that fire — (similarity * 0.4 if
similarity > 0.7) + (0.3 if the absolute value of the *floored whole-day*
difference `(date1 - date2).days` is < 7) + (overlap * 0.1 if the entity
intersection is non-empty, uncapped) + (0.2 if the mood fields are equal) —
and the reasons list contains exactly the tags of the factors that fired, in
factor order. -/
theorem scorer_strength_formula (mem1 mem2 : Memory) (similarity : ℚ) :
    (analyze_relationship mem1 mem2 similarity).strength =
      (if similarity > 7/10 then similarity * (4/10) else 0)
      + (if temporalFires mem1 mem2 then (3 : ℚ)/10 else 0)
      + (if 0 < (mem1.entities ∩ mem2.entities).card then
          ((mem1.entities ∩ mem2.entities).card : ℚ) * (1/10) else 0)
      + (if mem1.mood = mem2.mood then (2 : ℚ)/10 else 0) ∧
    (analyze_relationship mem1 mem2 similarity).reasons =
      (if similarity > 7/10 then ["semantic_similarity"] else [])
      ++ (if temporalFires mem1 mem2 then ["temporal_proximity"] else [])
      ++ (if 0 < (mem1.entities ∩ mem2.entities).card then ["shared_entities"] else [])
      ++ (if mem1.mood = mem2.mood then ["same_mood"] else []) :=
  ⟨analyze_strength_eq mem1 mem2 similarity, analyze_reasons_eq mem1 mem2 similarity⟩

/-- C2 (counterexample): two far-apart memories sharing a mood score 0.2,
which is ≥ the caller's minStrength 0.1, yet the graph at minStrength 0.1
has no edge at all: the detection pass already dropped the pair at its
hardcoded strict 0.3 threshold. -/
theorem graph_minstrength_filter_cex :
    (analyze_relationship ⟨"A", 0, some "happy", ∅⟩ ⟨"B", 8640000, some "happy", ∅⟩
        0).strength = 2/10 ∧
    (1 : ℚ)/10 ≤ 2/10 ∧
    (get_memory_graph (fun _ _ => 0)
        [⟨"A", 0, some "happy", ∅⟩, ⟨"B", 8640000, some "happy", ∅⟩] (1/10)).edges = [] := by
  have hT : ¬ temporalFires ⟨"A", 0, some "happy", ∅⟩ ⟨"B", 8640000, some "happy", ∅⟩ := by
    decide
  have hs : (analyze_relationship ⟨"A", 0, some "happy", ∅⟩ ⟨"B", 8640000, some "happy", ∅⟩
      0).strength = 2/10 := by
    norm_num [analyze_strength_eq, hT]
  have hgt : ¬ ((analyze_relationship ⟨"A", 0, some "happy", ∅⟩
      ⟨"B", 8640000, some "happy", ∅⟩ 0).strength > 3/10) := by
    rw [hs]; norm_num
  refine ⟨hs, by norm_num, ?_⟩
  norm_num [get_memory_graph, find_relationships, List.range_succ, hgt]

/-- C2 (amended): the graph returned by `get_memory_graph` contains exactly
those scored relationships whose strength both exceeds the detection pass's
hardcoded strict 0.3 threshold and is ≥ the caller's minStrength; pairs
scoring ≤ 0.3 never appear, regardless of minStrength. -/
theorem graph_edges_exactly_filtered (sim : Nat → Nat → ℚ) (memories : List Memory)
    (min_strength : ℚ) (r : Relationship) :
    r ∈ (get_memory_graph sim memories min_strength).edges ↔
      (r ∈ score_all_pairs sim memories ∧ 3/10 < r.strength ∧
        min_strength ≤ r.strength) := by
  simp only [get_memory_graph, find_relationships_eq_filter, List.mem_filter,
    decide_eq_true_eq]
  tauto

/-- C3 (code evaluated at the failing input): a pair where only the semantic
factor fires (similarity 0.8, timestamps 30 days apart, no shared entities,
different moods) is scored with type `"related"` — never the documented
`"semantic"` — although its strength 0.32 exceeds the 0.3 threshold, so the
relationship is really emitted with this type. -/
theorem semantic_only_type_related_bug :
    (analyze_relationship ⟨"A", 0, some "happy", ∅⟩ ⟨"B", 2592000, some "sad", ∅⟩
        (4/5)).type = "related" ∧
    (analyze_relationship ⟨"A", 0, some "happy", ∅⟩ ⟨"B", 2592000, some "sad", ∅⟩
        (4/5)).reasons = ["semantic_similarity"] ∧
    (analyze_relationship ⟨"A", 0, some "happy", ∅⟩ ⟨"B", 2592000, some "sad", ∅⟩
        (4/5)).strength = 8/25 := by
  have hT : ¬ temporalFires ⟨"A", 0, some "happy", ∅⟩ ⟨"B", 2592000, some "sad", ∅⟩ := by
    decide
  have hM : ¬ ("happy" : String) = "sad" := by decide
  refine ⟨?_, ?_, ?_⟩ <;>
    norm_num [analyze_type_eq, analyze_reasons_eq, analyze_strength_eq, hT, hM]

/-- C4 (counterexample): two memories with no mood label at all (both mood
fields absent) and nothing else in common are scored 0.2 with reason
`same_mood`: Python's `mem1.get('mood') == mem2.get('mood')` is true when
both sides are `None`. -/
theorem same_mood_both_none_cex :
    (analyze_relationship ⟨"A", 0, none, ∅⟩ ⟨"B", 2592000, none, ∅⟩ 0).reasons
      = ["same_mood"] ∧
    (analyze_relationship ⟨"A", 0, none, ∅⟩ ⟨"B", 2592000, none, ∅⟩ 0).strength
      = 2/10 := by
  have hT : ¬ temporalFires ⟨"A", 0, none, ∅⟩ ⟨"B", 2592000, none, ∅⟩ := by decide
  refine ⟨?_, ?_⟩ <;> norm_num [analyze_reasons_eq, analyze_strength_eq, hT]

/-- C4 (amended): the mood factor contributes 0.2 with reason `same_mood`
iff the two mood fields are equal — including the case where both are
absent. -/
theorem same_mood_fires_iff_mood_fields_equal (mem1 mem2 : Memory) (similarity : ℚ) :
    ("same_mood" ∈ (analyze_relationship mem1 mem2 similarity).reasons ↔
        mem1.mood = mem2.mood) ∧
    (analyze_relationship mem1 mem2 similarity).strength =
      ((if similarity > 7/10 then similarity * (4/10) else 0)
        + (if temporalFires mem1 mem2 then (3 : ℚ)/10 else 0)
        + (if 0 < (mem1.entities ∩ mem2.entities).card then
            ((mem1.entities ∩ mem2.entities).card : ℚ) * (1/10) else 0))
      + (if mem1.mood = mem2.mood then (2 : ℚ)/10 else 0) := by
  refine ⟨?_, analyze_strength_eq mem1 mem2 similarity⟩
  rw [analyze_reasons_eq]
  split_ifs <;> simp_all

/-- C5 (counterexample): two same-day, same-mood memories sharing nine
entities score 0.3 + 9*0.1 + 0.2 = 1.4, strictly above 1: strengths are not
confined to [0,1]. -/
theorem scorer_strength_exceeds_one_cex :
    (analyze_relationship
        ⟨"A", 0, some "happy", {"e1", "e2", "e3", "e4", "e5", "e6", "e7", "e8", "e9"}⟩
        ⟨"B", 0, some "happy", {"e1", "e2", "e3", "e4", "e5", "e6", "e7", "e8", "e9"}⟩
        0).strength = 7/5 ∧
    (1 : ℚ) < 7/5 := by
  have hT : temporalFires
      ⟨"A", 0, some "happy", {"e1", "e2", "e3", "e4", "e5", "e6", "e7", "e8", "e9"}⟩
      ⟨"B", 0, some "happy", {"e1", "e2", "e3", "e4", "e5", "e6", "e7", "e8", "e9"}⟩ := by
    decide
  have hc : (({"e1", "e2", "e3", "e4", "e5", "e6", "e7", "e8", "e9"} : Finset String)
      ∩ {"e1", "e2", "e3", "e4", "e5", "e6", "e7", "e8", "e9"}).card = 9 := by decide
  have hc2 : ({"e1", "e2", "e3", "e4", "e5", "e6", "e7", "e8", "e9"} : Finset String).card
      = 9 := by decide
  refine ⟨?_, by norm_num⟩
  norm_num [analyze_strength_eq, hT, hc, hc2]

/-- C5 (amended): every strength produced by the scorer is nonnegative (the
upper bound 1 does not hold: the entity term is uncapped). -/
theorem scorer_strength_nonneg (mem1 mem2 : Memory) (similarity : ℚ) :
    0 ≤ (analyze_relationship mem1 mem2 similarity).strength := by
  rw [analyze_strength_eq]
  have hc : (0 : ℚ) ≤ ((mem1.entities ∩ mem2.entities).card : ℚ) :=
    Nat.cast_nonneg _
  split_ifs <;> nlinarith

/-- C8 (counterexample): with creation timestamps 6.5 days apart, the scorer
is not symmetric: in one order the floored day difference is 6 (temporal
factor fires), in the other it is -7 whose absolute value is 7 (it does
not), so strength, reasons and type all differ between the two orders. -/
theorem scorer_asymmetry_cex :
    (analyze_relationship ⟨"A", 0, some "x", ∅⟩ ⟨"B", 561600, some "y", ∅⟩ 0).strength ≠
      (analyze_relationship ⟨"B", 561600, some "y", ∅⟩ ⟨"A", 0, some "x", ∅⟩ 0).strength ∧
    (analyze_relationship ⟨"A", 0, some "x", ∅⟩ ⟨"B", 561600, some "y", ∅⟩ 0).reasons ≠
      (analyze_relationship ⟨"B", 561600, some "y", ∅⟩ ⟨"A", 0, some "x", ∅⟩ 0).reasons ∧
    (analyze_relationship ⟨"A", 0, some "x", ∅⟩ ⟨"B", 561600, some "y", ∅⟩ 0).type ≠
      (analyze_relationship ⟨"B", 561600, some "y", ∅⟩ ⟨"A", 0, some "x", ∅⟩ 0).type := by
  have h1 : ¬ temporalFires ⟨"A", 0, some "x", ∅⟩ ⟨"B", 561600, some "y", ∅⟩ := by decide
  have h2 : temporalFires ⟨"B", 561600, some "y", ∅⟩ ⟨"A", 0, some "x", ∅⟩ := by decide
  have hM : ¬ ("x" : String) = "y" := by decide
  have hM2 : ¬ ("y" : String) = "x" := by decide
  refine ⟨?_, ?_, ?_⟩ <;>
    norm_num [analyze_strength_eq, analyze_reasons_eq, analyze_type_eq, h1, h2, hM, hM2]
  decide

/-- C8 (amended): the scorer is symmetric in strength, reasons and type
whenever the two creation timestamps differ by a whole number of days (in
particular for date-only timestamps); the asymmetry can only come from the
flooring of the day difference. -/
theorem scorer_symmetric_on_whole_days (mem1 mem2 : Memory) (similarity : ℚ)
    (h : (86400 : Int) ∣ (mem1.created_at - mem2.created_at)) :
    (analyze_relationship mem1 mem2 similarity).strength =
      (analyze_relationship mem2 mem1 similarity).strength ∧
    (analyze_relationship mem1 mem2 similarity).reasons =
      (analyze_relationship mem2 mem1 similarity).reasons ∧
    (analyze_relationship mem1 mem2 similarity).type =
      (analyze_relationship mem2 mem1 similarity).type := by
  obtain ⟨k, hk⟩ := h
  have h2 : mem2.created_at - mem1.created_at = 86400 * (-k) := by
    rw [← neg_sub mem1.created_at mem2.created_at, hk, ← mul_neg]
  have hdays : (Int.fdiv (mem2.created_at - mem1.created_at) 86400).natAbs
      = (Int.fdiv (mem1.created_at - mem2.created_at) 86400).natAbs := by
    rw [hk, h2, Int.mul_fdiv_cancel_left _ (by norm_num),
      Int.mul_fdiv_cancel_left _ (by norm_num), Int.natAbs_neg]
  have htemp : temporalFires mem2 mem1 ↔ temporalFires mem1 mem2 := by
    unfold temporalFires
    rw [hdays]
  have hinter : mem2.entities ∩ mem1.entities = mem1.entities ∩ mem2.entities :=
    Finset.inter_comm _ _
  have hmood : mem2.mood = mem1.mood ↔ mem1.mood = mem2.mood := eq_comm
  refine ⟨?_, ?_, ?_⟩
  · rw [analyze_strength_eq, analyze_strength_eq]
    simp only [htemp, hinter, hmood]
  · rw [analyze_reasons_eq, analyze_reasons_eq]
    simp only [htemp, hinter, hmood]
  · rw [analyze_type_eq, analyze_type_eq]
    simp only [htemp, hinter, hmood]

/-- Witness for the amended symmetry claim: two memories exactly two days
apart, evaluated in both orders. -/
theorem scorer_symmetric_on_whole_days_witness :
    (analyze_relationship ⟨"A", 0, some "happy", ∅⟩ ⟨"B", 172800, some "happy", ∅⟩
        0).strength =
      (analyze_relationship ⟨"B", 172800, some "happy", ∅⟩ ⟨"A", 0, some "happy", ∅⟩
        0).strength ∧
    (analyze_relationship ⟨"A", 0, some "happy", ∅⟩ ⟨"B", 172800, some "happy", ∅⟩
        0).reasons =
      (analyze_relationship ⟨"B", 172800, some "happy", ∅⟩ ⟨"A", 0, some "happy", ∅⟩
        0).reasons ∧
    (analyze_relationship ⟨"A", 0, some "happy", ∅⟩ ⟨"B", 172800, some "happy", ∅⟩
        0).type =
      (analyze_relationship ⟨"B", 172800, some "happy", ∅⟩ ⟨"A", 0, some "happy", ∅⟩
        0).type :=
  scorer_symmetric_on_whole_days _ _ 0 ⟨-2, by norm_num⟩

/-- C9: threshold monotonicity — raising minStrength can only shrink the
edge set of the returned graph. -/
theorem graph_threshold_monotone (sim : Nat → Nat → ℚ) (memories : List Memory)
    (t1 t2 : ℚ) (h : t1 < t2) :
    (get_memory_graph sim memories t2).edges ⊆ (get_memory_graph sim memories t1).edges := by
  intro r hr
  simp only [get_memory_graph, List.mem_filter, decide_eq_true_eq] at hr ⊢
  exact ⟨hr.1, le_trans (le_of_lt h) hr.2⟩

/-- Witness for threshold monotonicity at thresholds 0.2 < 0.4 on the demo
memory set. -/
theorem graph_threshold_monotone_witness :
    (get_memory_graph simZero demoMems (2/5)).edges ⊆
      (get_memory_graph simZero demoMems (1/5)).edges :=
  graph_threshold_monotone simZero demoMems (1/5) (2/5) (by norm_num)

/-- C10: the detection pass only ever emits relationships with strength
strictly greater than 0.3, and consequently every minStrength ≤ 0.3 yields
exactly the edge set obtained at minStrength 0.3. -/
theorem hardcoded_threshold_floor :
    (∀ (sim : Nat → Nat → ℚ) (memories : List Memory),
        ∀ r ∈ find_relationships sim memories, 3/10 < r.strength) ∧
    (∀ (sim : Nat → Nat → ℚ) (memories : List Memory) (s : ℚ), s ≤ 3/10 →
        (get_memory_graph sim memories s).edges
          = (get_memory_graph sim memories (3/10)).edges) := by
  refine ⟨find_relationships_strength_gt, ?_⟩
  intro sim memories s hs
  simp only [get_memory_graph]
  rw [List.filter_eq_self.mpr, List.filter_eq_self.mpr]
  · intro r hr
    simpa using le_of_lt (find_relationships_strength_gt sim memories r hr)
  · intro r hr
    simpa using le_trans hs (le_of_lt (find_relationships_strength_gt sim memories r hr))

/-- Witness for the implicit threshold floor: on the demo set, minStrength
0.1 returns the same edges as minStrength 0.3. -/
theorem hardcoded_threshold_floor_witness :
    (get_memory_graph simZero demoMems (1/10)).edges
      = (get_memory_graph simZero demoMems (3/10)).edges :=
  hardcoded_threshold_floor.2 simZero demoMems (1/10) (by norm_num)

/-- Community detection on the five-memory scenario graph: the triangle
A-B-C merges into one community (two positive-gain greedy merges), while the
isolated nodes D and E stay behind as singleton communities. -/
theorem louvain_scenario_eval :
    louvain_communities
      { nodes := ["A", "B", "C", "D", "E"],
        edges := [("A", "B", 1/2), ("A", "C", 1/2), ("B", "C", 1/2)] }
      = [["A", "B", "C"], ["D"], ["E"]] := by
  have hr5 : List.range 5 = [0, 1, 2, 3, 4] := by decide
  have hr4 : List.range 4 = [0, 1, 2, 3] := by decide
  have hr3 : List.range 3 = [0, 1, 2] := by decide
  have htot : WGraph.totalWeight
      { nodes := ["A", "B", "C", "D", "E"],
        edges := [("A", "B", 1/2), ("A", "C", 1/2), ("B", "C", 1/2)] } = 3/2 := by
    norm_num [WGraph.totalWeight]
  have hb1 : bestPair [("A", "B", 1/2), ("A", "C", 1/2), ("B", "C", 1/2)] (3/2)
      [["A"], ["B"], ["C"], ["D"], ["E"]] = some (0, 1) := by
    simp [bestPair, mergeGain, commWeight, commTot, hr5]
    norm_num
  have hm1 : mergeAt [["A"], ["B"], ["C"], ["D"], ["E"]] 0 1
      = [["A", "B"], ["C"], ["D"], ["E"]] := by
    simp [mergeAt, hr5]
  have hb2 : bestPair [("A", "B", 1/2), ("A", "C", 1/2), ("B", "C", 1/2)] (3/2)
      [["A", "B"], ["C"], ["D"], ["E"]] = some (0, 1) := by
    simp [bestPair, mergeGain, commWeight, commTot, hr4]
    norm_num
  have hm2 : mergeAt [["A", "B"], ["C"], ["D"], ["E"]] 0 1
      = [["A", "B", "C"], ["D"], ["E"]] := by
    simp [mergeAt, hr4]
  have hb3 : bestPair [("A", "B", 1/2), ("A", "C", 1/2), ("B", "C", 1/2)] (3/2)
      [["A", "B", "C"], ["D"], ["E"]] = none := by
    simp [bestPair, mergeGain, commWeight, commTot, hr3]
  simp only [louvain_communities, List.map_cons, List.map_nil, greedyRounds,
    htot, hb1, hm1, hb2, hm2, hb3]

/-- C6 (counterexample): on the five-memory scenario the cluster detector
does not return exactly one cluster — it returns three — and both isolated
memories D and E do appear in (singleton) clusters. -/
theorem clusters_isolated_not_excluded_cex :
    (detect_memory_clusters rels5 mems5).length ≠ 1 ∧
    "D" ∈ (detect_memory_clusters rels5 mems5).flatMap
      (fun cl => cl.memories.map Memory.id) ∧
    "E" ∈ (detect_memory_clusters rels5 mems5).flatMap
      (fun cl => cl.memories.map Memory.id) := by
  have hr3 : List.range 3 = [0, 1, 2] := by decide
  refine ⟨?_, ?_, ?_⟩ <;>
    simp only [detect_memory_clusters, rels5, mems5, List.map_cons, List.map_nil,
      louvain_scenario_eval] <;>
    simp [hr3]

/-- C6 (amended): community detection partitions all memory nodes, so
isolated memories are not excluded — each forms a singleton cluster.  On
the five-memory scenario the detector returns three clusters: the three
mutually connected memories as one cluster of size 3, and one singleton
cluster for each isolated memory. -/
theorem clusters_scenario_three_clusters :
    (detect_memory_clusters rels5 mems5).map (fun cl => cl.memories.map Memory.id)
      = [["A", "B", "C"], ["D"], ["E"]] ∧
    (detect_memory_clusters rels5 mems5).map Cluster.size = [3, 1, 1] := by
  have hr3 : List.range 3 = [0, 1, 2] := by decide
  refine ⟨?_, ?_⟩ <;>
    simp only [detect_memory_clusters, rels5, mems5, List.map_cons, List.map_nil,
      louvain_scenario_eval] <;>
    simp [hr3]

/-- C7: the graph service's manual-relationship and path-finding operations,
modelled from the spec (both endpoint bodies are `pass` stubs in the
repository): creating a manual relationship persists a Relationship of type
`"manual"` with the caller-specified strength, and the path query between
two memories connected only through a third (A-C strength 0.5, C-B strength
0.5) returns the ordered path [A, C, B]. -/
theorem manual_relate_and_path_scenario :
    manually_relate_memories [] "A" "B" "manual" (4/5)
      = [{ source := "A", target := "B", strength := 4/5, type := "manual",
           reasons := [] }] ∧
    find_memory_path
      [⟨"A", "C", 1/2, "manual", []⟩, ⟨"C", "B", 1/2, "manual", []⟩] "A" "B"
      = some ["A", "C", "B"] := by
  constructor
  · rfl
  · have hd : (["A", "C", "C", "B"] : List String).dedup = ["A", "C", "B"] := by decide
    simp [find_memory_path, simplePaths, adjOf, hd]

end LifeLink
